import Mathlib

/-!
Shallow embedding of the `music_recommender` repository: the data loading
layer (`music_data.py`) and the recommendation orchestration layer
(`reccommender.py`).  Files are modelled as already-tokenised tabular data
(a header field list plus typed rows); the pandas / scipy library calls the
source makes are embedded by their documented semantics:

* `pd.read_csv` + column check: the loader first tests that the required
  field names are a subset of the header, raising `ValueError` otherwise.
* `sp.coo_matrix((data, (row, col)))` with no explicit shape: the shape is
  inferred as `(max row index + 1, max col index + 1)`; it cannot be
  inferred from empty index arrays.
* `coo.tocsr()`: duplicate `(row, col)` entries are summed during
  conversion; the CSR cell value is the accumulated sum.
* `df.set_index("id")`: keeps every row, duplicates included; `x in
  df.index` tests membership; `df.loc[x, "name"]` returns the scalar name
  when exactly one row has index `x`, and a Series of all matching names
  (in file order) when several rows share the index `x`.

Weights are modelled as rationals; a raw weight is `Option Rat`, `none`
standing for a field that `astype(float)` cannot coerce.  Python
exceptions become `Except` errors.
-/

set_option autoImplicit false

namespace MusicRecommender

/-- One data row of the interactions file (`user_artists.dat`), as read by
`pd.read_csv`: the weight may fail to coerce to float (`none`). -/
structure RawInteractionRow where
  userID : Nat
  artistID : Nat
  weight : Option Rat
  deriving Repr, DecidableEq

/-- An interactions row after `astype(float)` succeeded. -/
structure InteractionRow where
  userID : Nat
  artistID : Nat
  weight : Rat
  deriving Repr, DecidableEq

/-- A tabular interactions file: whether it exists on disk, its header
fields, and its data rows. -/
structure InteractionsFile where
  present : Bool
  fields : List String
  rows : List RawInteractionRow
  deriving Repr

/-- One data row of the artists catalog file (`artists.dat`). -/
structure ArtistRow where
  id : Nat
  name : String
  deriving Repr, DecidableEq

/-- A tabular artists catalog file. -/
structure ArtistsFile where
  present : Bool
  fields : List String
  rows : List ArtistRow
  deriving Repr

/-- The errors the data layer raises: `FileNotFoundError`, the
`ValueError` for missing columns, the `ValueError` raised by
`astype(float)` on a non-numeric weight, and the `ValueError` scipy raises
when `coo_matrix` cannot infer a shape from empty index arrays. -/
inductive DataError where
  | notFound
  | schemaError
  | parseError
  | emptyData
  deriving Repr, DecidableEq

/-- A CSR matrix as the code observes it: its shape and the value stored
at each cell. -/
structure CSRMatrix where
  nRows : Nat
  nCols : Nat
  entry : Nat → Nat → Rat

/-- `df.weight.astype(float)` over all rows: fails with `ParseError` if
any weight does not coerce. -/
def coerceRows : List RawInteractionRow → Except DataError (List InteractionRow)
  | [] => .ok []
  | r :: rs =>
    match r.weight with
    | none => .error .parseError
    | some w => (coerceRows rs).map (fun l => ⟨r.userID, r.artistID, w⟩ :: l)

/-- Add one COO entry into a cell function: the accumulation step of
`coo.tocsr()` (duplicate `(row, col)` pairs are summed). -/
def addEntry (f : Nat → Nat → Rat) (r : InteractionRow) : Nat → Nat → Rat :=
  fun u a => if u = r.userID ∧ a = r.artistID then f u a + r.weight else f u a

/-- The cell contents produced by `coo.tocsr()`: all entries accumulated
into an initially-zero matrix. -/
def accumulate (rows : List InteractionRow) : Nat → Nat → Rat :=
  rows.foldl addEntry (fun _ _ => 0)

/-- The row (resp. column) extent scipy infers: one past the largest
index occurring in the entry list. -/
def maxUserID (rows : List InteractionRow) : Nat :=
  rows.foldl (fun m r => max m r.userID) 0

def maxArtistID (rows : List InteractionRow) : Nat :=
  rows.foldl (fun m r => max m r.artistID) 0

/-- `load_user_artists` (src/music_data.py, lines 18-51): existence
check, `read_csv`, required-column check, float coercion of the weight
column, `coo_matrix` shape inference, `tocsr()` duplicate summation. -/
def load_user_artists (f : InteractionsFile) : Except DataError CSRMatrix :=
  if f.present = false then .error .notFound
  else if (["userID", "artistID", "weight"].all f.fields.contains) = false then
    .error .schemaError
  else
    match coerceRows f.rows with
    | .error e => .error e
    | .ok [] => .error .emptyData
    | .ok rows =>
      .ok { nRows := maxUserID rows + 1, nCols := maxArtistID rows + 1,
            entry := accumulate rows }

/-- `ArtistRetriever.__init__` sets `_artists_df` to `None`; `load_artists`
replaces it by the DataFrame indexed on `id` (duplicates kept). -/
structure ArtistRetriever where
  artists_df : Option (List ArtistRow)

/-- A fresh `ArtistRetriever()`. -/
def ArtistRetriever.init : ArtistRetriever := ⟨none⟩

/-- `ArtistRetriever.load_artists` (src/music_data.py, lines 62-79):
existence check, `read_csv`, required-column check, `set_index("id")`. -/
def ArtistRetriever.load_artists (ret : ArtistRetriever) (f : ArtistsFile) :
    Except DataError ArtistRetriever :=
  if f.present = false then .error .notFound
  else if (["id", "name"].all f.fields.contains) = false then .error .schemaError
  else .ok { ret with artists_df := some f.rows }

/-- What `df.loc[artist_id, "name"]` evaluates to: a scalar string when the
index label is unique, a Series of all matching names otherwise. -/
inductive ResolveValue where
  | scalar (s : String)
  | series (names : List String)
  deriving Repr, DecidableEq

/-- The `ValueError` raised when the catalog is used before `load_artists`. -/
inductive ResolveError where
  | notLoaded
  deriving Repr, DecidableEq

/-- `ArtistRetriever.get_artist_name_from_id` (src/music_data.py, lines
81-101): raises if unloaded; returns the placeholder string for an id not
in the index; otherwise returns `df.loc[artist_id, "name"]`. -/
def ArtistRetriever.get_artist_name_from_id (ret : ArtistRetriever) (artist_id : Nat) :
    Except ResolveError ResolveValue :=
  match ret.artists_df with
  | none => .error .notLoaded
  | some df =>
    match df.filter (fun r => r.id = artist_id) with
    | [] => .ok (.scalar ("Unknown Artist (ID: " ++ toString artist_id ++ ")"))
    | [r] => .ok (.scalar r.name)
    | rs => .ok (.series (rs.map ArtistRow.name))

/-- The factorization collaborator (`implicit` model): its `recommend`
capability takes the user id and the requested count and either returns an
ordered list of `(artist_id, score)` pairs or raises internally. -/
structure ImplicitModel where
  recommend : Int → Int → Except Unit (List (Nat × Rat))

/-- The errors `ImplicitRecommender.recommend` raises before its
`try` block: the not-fitted `ValueError` and the bounds `IndexError`. -/
inductive RecError where
  | notFitted
  | outOfRange
  deriving Repr, DecidableEq

/-- `ImplicitRecommender` (src/reccommender.py, lines 20-37): holds the
artist retriever, the implicit model, and the fitted matrix
(`None` until `fit`). -/
structure ImplicitRecommender where
  artist_retriever : ArtistRetriever
  implicit_model : ImplicitModel
  user_artists_matrix : Option CSRMatrix

/-- `ImplicitRecommender.__init__`: the matrix starts as `None`. -/
def ImplicitRecommender.init (ret : ArtistRetriever) (model : ImplicitModel) :
    ImplicitRecommender :=
  ⟨ret, model, none⟩

/-- `ImplicitRecommender.fit` (src/reccommender.py, lines 39-46): stores
the matrix and trains the collaborator (opaque state, not modelled). -/
def ImplicitRecommender.fit (rec : ImplicitRecommender) (m : CSRMatrix) :
    ImplicitRecommender :=
  { rec with user_artists_matrix := some m }

/-- The list comprehension of src/reccommender.py lines 72-75: resolve
the returned artist ids left to right; the first exception propagates. -/
def resolveList (ret : ArtistRetriever) :
    List (Nat × Rat) → Except ResolveError (List ResolveValue)
  | [] => .ok []
  | p :: ps =>
    match ret.get_artist_name_from_id p.1 with
    | .error e => .error e
    | .ok v => (resolveList ret ps).map (fun vs => v :: vs)

/-- `ImplicitRecommender.recommend` (src/reccommender.py, lines 48-81):
raises `ValueError` while unfitted; raises `IndexError` when `user_id ≥
shape[0]`; then inside the `try` block extracts the user row
(`matrix[user_id]` accepts negative indices down to `-nRows` and raises
`IndexError` below that, caught by the handler), calls the collaborator,
and resolves every returned id to a name; any exception inside the block
is logged and turned into the empty result `([], [])`. -/
def ImplicitRecommender.recommend (rec : ImplicitRecommender) (user_id : Int) (n : Int) :
    Except RecError (List ResolveValue × List Rat) :=
  match rec.user_artists_matrix with
  | none => .error .notFitted
  | some m =>
    if (m.nRows : Int) ≤ user_id then .error .outOfRange
    else if user_id < -(m.nRows : Int) then .ok ([], [])
    else
      match rec.implicit_model.recommend user_id n with
      | .error _ => .ok ([], [])
      | .ok pairs =>
        match resolveList rec.artist_retriever pairs with
        | .error _ => .ok ([], [])
        | .ok names => .ok (names, pairs.map Prod.snd)

/-! Concrete files, stub collaborators and engine states used by the
end-to-end scenarios. -/

/-- The interactions file of the end-to-end scenario: rows `(0,10,5.0)`,
`(0,10,3.0)`, `(1,10,1.0)`. -/
def scenarioInteractions : InteractionsFile :=
  ⟨true, ["userID", "artistID", "weight"],
    [⟨0, 10, some 5⟩, ⟨0, 10, some 3⟩, ⟨1, 10, some 1⟩]⟩

/-- The catalog file of the end-to-end scenario: one row `(10, "Alpha")`. -/
def scenarioCatalog : ArtistsFile := ⟨true, ["id", "name"], [⟨10, "Alpha"⟩]⟩

/-- A catalog file in which artist id 10 appears in two rows. -/
def dupCatalog : ArtistsFile :=
  ⟨true, ["id", "name"], [⟨10, "Alpha"⟩, ⟨10, "Beta"⟩]⟩

/-- The retriever state `load_artists` produces from `dupCatalog`. -/
def dupRetriever : ArtistRetriever := ⟨some dupCatalog.rows⟩

/-- An interactions file that exists but lacks the `weight` field; its one
row even carries an uncoercible weight, showing the schema failure happens
before any row is parsed. -/
def badInteractions : InteractionsFile :=
  ⟨true, ["userID", "artistID"], [⟨0, 0, none⟩]⟩

/-- A catalog file that exists but lacks the `name` field. -/
def badCatalog : ArtistsFile := ⟨true, ["id"], [⟨1, "x"⟩]⟩

/-- A collaborator stub whose `recommend` always raises internally. -/
def failingModel : ImplicitModel := ⟨fun _ _ => .error ()⟩

/-- A collaborator stub returning the scenario pairs `[(10, 0.9), (5, 0.4)]`. -/
def scenarioModel : ImplicitModel := ⟨fun _ _ => .ok [(10, 9/10), (5, 2/5)]⟩

/-- A collaborator stub that returns no candidates. -/
def emptyModel : ImplicitModel := ⟨fun _ _ => .ok []⟩

/-- A retriever already loaded with the scenario catalog. -/
def scenarioRetriever : ArtistRetriever := ⟨some scenarioCatalog.rows⟩

/-- A 2-user, 11-artist matrix matching the scenario shape. -/
def baseMatrix : CSRMatrix := ⟨2, 11, fun _ _ => 0⟩

/-- A fitted engine whose collaborator always raises. -/
def recFailing : ImplicitRecommender :=
  (ImplicitRecommender.init ArtistRetriever.init failingModel).fit baseMatrix

/-- A fitted engine with loaded catalog and the scenario collaborator. -/
def recScenario : ImplicitRecommender :=
  (ImplicitRecommender.init scenarioRetriever scenarioModel).fit baseMatrix

/-- A fitted engine with loaded catalog and a no-candidate collaborator. -/
def recEmptyModel : ImplicitRecommender :=
  (ImplicitRecommender.init scenarioRetriever emptyModel).fit baseMatrix

/-- A fitted engine whose retriever was never loaded. -/
def recUnloaded : ImplicitRecommender :=
  (ImplicitRecommender.init ArtistRetriever.init scenarioModel).fit baseMatrix

/-- The coercion `astype(float)` applies to one row whose weight is known
to be coercible. -/
def coerceRow (r : RawInteractionRow) : InteractionRow :=
  ⟨r.userID, r.artistID, r.weight.getD 0⟩

/-! Helper lemmas about the embedded library semantics. -/

theorem foldl_addEntry_apply (rows : List InteractionRow) (f : Nat → Nat → Rat) (u a : Nat) :
    rows.foldl addEntry f u a
      = f u a + ((rows.filter fun r => u = r.userID ∧ a = r.artistID).map
          InteractionRow.weight).sum := by
  induction rows generalizing f with
  | nil => simp
  | cons r rs ih =>
    rw [List.foldl_cons, ih, List.filter_cons]
    by_cases h : u = r.userID ∧ a = r.artistID
    · simp [h, addEntry, add_assoc]
    · simp [h, addEntry]

theorem accumulate_eq_sum (rows : List InteractionRow) (u a : Nat) :
    accumulate rows u a
      = ((rows.filter fun r => u = r.userID ∧ a = r.artistID).map
          InteractionRow.weight).sum := by
  rw [accumulate, foldl_addEntry_apply]
  simp

theorem coerceRows_ok (rows : List RawInteractionRow)
    (hw : ∀ r ∈ rows, r.weight ≠ none) :
    coerceRows rows = .ok (rows.map coerceRow) := by
  induction rows with
  | nil => rfl
  | cons r rs ih =>
    obtain ⟨w, hwr⟩ : ∃ w, r.weight = some w :=
      Option.ne_none_iff_exists'.mp (hw r (by simp))
    rw [coerceRows, hwr, ih (fun x hx => hw x (by simp [hx]))]
    simp [Except.map, coerceRow, hwr]

theorem le_foldl_max (g : InteractionRow → Nat) (rows : List InteractionRow) (m : Nat) :
    m ≤ rows.foldl (fun x r => max x (g r)) m := by
  induction rows generalizing m with
  | nil => simp
  | cons r rs ih => exact le_trans (le_max_left m (g r)) (ih (max m (g r)))

theorem mem_le_foldl_max (g : InteractionRow → Nat) (rows : List InteractionRow) (m : Nat) :
    ∀ r ∈ rows, g r ≤ rows.foldl (fun x r2 => max x (g r2)) m := by
  induction rows generalizing m with
  | nil => simp
  | cons r rs ih =>
    intro x hx
    rcases List.mem_cons.mp hx with hx | hx
    · subst hx
      exact le_trans (le_max_right m (g x)) (le_foldl_max g rs (max m (g x)))
    · exact ih (max m (g r)) x hx

theorem foldl_max_attained (g : InteractionRow → Nat) (rows : List InteractionRow) (m : Nat) :
    rows.foldl (fun x r => max x (g r)) m = m
      ∨ ∃ r ∈ rows, rows.foldl (fun x r2 => max x (g r2)) m = g r := by
  induction rows generalizing m with
  | nil => exact Or.inl rfl
  | cons r rs ih =>
    rcases ih (max m (g r)) with h | ⟨x, hx, hval⟩
    · rcases max_choice m (g r) with hm | hm
      · exact Or.inl (by rw [List.foldl_cons, h, hm])
      · exact Or.inr ⟨r, by simp, by rw [List.foldl_cons, h, hm]⟩
    · exact Or.inr ⟨x, by simp [hx], hval⟩

theorem foldl_max_exists_mem (g : InteractionRow → Nat) (rows : List InteractionRow)
    (hne : rows ≠ []) :
    ∃ r ∈ rows, rows.foldl (fun x r2 => max x (g r2)) 0 = g r := by
  rcases foldl_max_attained g rows 0 with h | h
  · match rows, hne with
    | r :: rs, _ =>
      refine ⟨r, by simp, ?_⟩
      have h1 := mem_le_foldl_max g (r :: rs) 0 r (by simp)
      omega
  · exact h

/-! Facts about the catalog state machine and the fitted engine, shared by
the claim theorems. -/

theorem load_artists_ok (ret ret2 : ArtistRetriever) (f : ArtistsFile)
    (h : ret.load_artists f = .ok ret2) : ret2.artists_df = some f.rows := by
  unfold ArtistRetriever.load_artists at h
  split at h
  · exact absurd h (by simp)
  · split at h
    · exact absurd h (by simp)
    · cases h
      rfl

theorem get_artist_name_unloaded (ret : ArtistRetriever) (aid : Nat)
    (h : ret.artists_df = none) :
    ret.get_artist_name_from_id aid = .error .notLoaded := by
  simp [ArtistRetriever.get_artist_name_from_id, h]

theorem get_artist_name_loaded_ok (ret : ArtistRetriever) (df : List ArtistRow) (aid : Nat)
    (h : ret.artists_df = some df) :
    ∃ v, ret.get_artist_name_from_id aid = .ok v := by
  unfold ArtistRetriever.get_artist_name_from_id
  rw [h]
  cases hf : df.filter (fun r => r.id = aid) with
  | nil =>
    refine ⟨.scalar ("Unknown Artist (ID: " ++ toString aid ++ ")"), ?_⟩
    simp [hf]
  | cons r rs =>
    cases rs with
    | nil =>
      refine ⟨.scalar r.name, ?_⟩
      simp [hf]
    | cons r2 rs2 =>
      refine ⟨.series (r.name :: r2.name :: rs2.map ArtistRow.name), ?_⟩
      simp [hf]

theorem resolveList_ok (ret : ArtistRetriever) (df : List ArtistRow)
    (h : ret.artists_df = some df) (pairs : List (Nat × Rat)) :
    ∃ names, resolveList ret pairs = .ok names := by
  induction pairs with
  | nil => exact ⟨[], rfl⟩
  | cons p ps ih =>
    obtain ⟨v, hv⟩ := get_artist_name_loaded_ok ret df p.1 h
    obtain ⟨ns, hns⟩ := ih
    refine ⟨v :: ns, ?_⟩
    rw [resolveList, hv, hns]
    rfl

theorem resolveList_unloaded (ret : ArtistRetriever) (p : Nat × Rat) (ps : List (Nat × Rat))
    (h : ret.artists_df = none) :
    resolveList ret (p :: ps) = .error .notLoaded := by
  rw [resolveList, get_artist_name_unloaded ret p.1 h]

theorem recommend_fitted_eq (rec : ImplicitRecommender) (m : CSRMatrix) (user_id n : Int)
    (hfit : rec.user_artists_matrix = some m) :
    rec.recommend user_id n
      = if (m.nRows : Int) ≤ user_id then .error .outOfRange
        else if user_id < -(m.nRows : Int) then .ok ([], [])
        else
          match rec.implicit_model.recommend user_id n with
          | .error _ => .ok ([], [])
          | .ok pairs =>
            match resolveList rec.artist_retriever pairs with
            | .error _ => .ok ([], [])
            | .ok names => .ok (names, pairs.map Prod.snd) := by
  unfold ImplicitRecommender.recommend
  rw [hfit]

/-- C1: for every valid interactions file (present on disk, required
columns present, at least one data row, every weight coercible),
`load_user_artists` succeeds; the resulting matrix's row count is an
attained strict upper bound of the observed userIDs (max observed userID
+ 1), its column count likewise for artistIDs, and every cell `(u, a)`
holds the sum of the weights of all rows with that `(userID, artistID)`
pair — duplicates accumulate, never overwrite. -/
theorem load_user_artists_spec (f : InteractionsFile)
    (hp : f.present = true)
    (hs : (["userID", "artistID", "weight"].all f.fields.contains) = true)
    (hne : f.rows ≠ [])
    (hw : ∀ r ∈ f.rows, r.weight ≠ none) :
    ∃ m : CSRMatrix, load_user_artists f = .ok m
      ∧ (∀ r ∈ f.rows, r.userID + 1 ≤ m.nRows)
      ∧ (∃ r ∈ f.rows, r.userID + 1 = m.nRows)
      ∧ (∀ r ∈ f.rows, r.artistID + 1 ≤ m.nCols)
      ∧ (∃ r ∈ f.rows, r.artistID + 1 = m.nCols)
      ∧ (∀ u a : Nat, m.entry u a
          = ((f.rows.filter fun r => u = r.userID ∧ a = r.artistID).map
              (fun r => r.weight.getD 0)).sum) := by
  have hco := coerceRows_ok f.rows hw
  obtain ⟨r0, rs0, hr⟩ : ∃ r0 rs0, f.rows = r0 :: rs0 := by
    cases hcase : f.rows with
    | nil => exact absurd hcase hne
    | cons a b => exact ⟨a, b, rfl⟩
  refine ⟨{ nRows := maxUserID (f.rows.map coerceRow) + 1,
            nCols := maxArtistID (f.rows.map coerceRow) + 1,
            entry := accumulate (f.rows.map coerceRow) }, ?_, ?_, ?_, ?_, ?_, ?_⟩
  · simp only [load_user_artists, hp, hs, hco]
    rw [hr]
    simp
  · intro r hrmem
    have h2 := mem_le_foldl_max InteractionRow.userID (f.rows.map coerceRow) 0
      (coerceRow r) (List.mem_map_of_mem coerceRow hrmem)
    simp only [coerceRow] at h2
    simp only [maxUserID]
    omega
  · obtain ⟨cr, hcrmem, hval⟩ := foldl_max_exists_mem InteractionRow.userID
      (f.rows.map coerceRow) (by simp [hr])
    obtain ⟨r, hrmem, hrcr⟩ := List.mem_map.mp hcrmem
    refine ⟨r, hrmem, ?_⟩
    have hm : maxUserID (f.rows.map coerceRow) = r.userID := by
      simp only [maxUserID]
      rw [hval, ← hrcr]
      rfl
    rw [hm]
  · intro r hrmem
    have h2 := mem_le_foldl_max InteractionRow.artistID (f.rows.map coerceRow) 0
      (coerceRow r) (List.mem_map_of_mem coerceRow hrmem)
    simp only [coerceRow] at h2
    simp only [maxArtistID]
    omega
  · obtain ⟨cr, hcrmem, hval⟩ := foldl_max_exists_mem InteractionRow.artistID
      (f.rows.map coerceRow) (by simp [hr])
    obtain ⟨r, hrmem, hrcr⟩ := List.mem_map.mp hcrmem
    refine ⟨r, hrmem, ?_⟩
    have hm : maxArtistID (f.rows.map coerceRow) = r.artistID := by
      simp only [maxArtistID]
      rw [hval, ← hrcr]
      rfl
    rw [hm]
  · intro u a
    show accumulate (f.rows.map coerceRow) u a = _
    rw [accumulate_eq_sum, List.filter_map, List.map_map]
    have hpred : ((fun r : InteractionRow => decide (u = r.userID ∧ a = r.artistID)) ∘ coerceRow)
        = (fun r : RawInteractionRow => decide (u = r.userID ∧ a = r.artistID)) := by
      funext r
      rfl
    have hwt : (InteractionRow.weight ∘ coerceRow)
        = (fun r : RawInteractionRow => r.weight.getD 0) := by
      funext r
      rfl
    rw [hpred, hwt]

/-- C1 witness: the end-to-end scenario file with rows `(0,10,5.0)`,
`(0,10,3.0)`, `(1,10,1.0)` satisfies every hypothesis, and the theorem
applies to it. -/
theorem load_user_artists_spec_witness :
    (scenarioInteractions.present = true
      ∧ (["userID", "artistID", "weight"].all scenarioInteractions.fields.contains) = true
      ∧ scenarioInteractions.rows ≠ []
      ∧ ∀ r ∈ scenarioInteractions.rows, r.weight ≠ none)
    ∧ (∃ m : CSRMatrix, load_user_artists scenarioInteractions = .ok m
      ∧ (∀ r ∈ scenarioInteractions.rows, r.userID + 1 ≤ m.nRows)
      ∧ (∃ r ∈ scenarioInteractions.rows, r.userID + 1 = m.nRows)
      ∧ (∀ r ∈ scenarioInteractions.rows, r.artistID + 1 ≤ m.nCols)
      ∧ (∃ r ∈ scenarioInteractions.rows, r.artistID + 1 = m.nCols)
      ∧ (∀ u a : Nat, m.entry u a
          = ((scenarioInteractions.rows.filter
                fun r => u = r.userID ∧ a = r.artistID).map
              (fun r => r.weight.getD 0)).sum)) :=
  ⟨⟨rfl, by decide, by decide, by decide⟩,
    load_user_artists_spec scenarioInteractions rfl (by decide) (by decide) (by decide)⟩

/-- C2: on a fitted engine, for an in-range user, when the collaborator's
scoring capability raises any internal exception, `recommend` does not
propagate the failure: it logs it and returns the empty result. -/
theorem recommend_fail_soft_spec (rec : ImplicitRecommender) (m : CSRMatrix)
    (user_id n : Int) (e : Unit)
    (hfit : rec.user_artists_matrix = some m)
    (hlo : 0 ≤ user_id) (hhi : user_id < (m.nRows : Int))
    (herr : rec.implicit_model.recommend user_id n = .error e) :
    rec.recommend user_id n = .ok ([], []) := by
  rw [recommend_fitted_eq rec m user_id n hfit, if_neg (not_le.mpr hhi),
    if_neg (by omega), herr]

/-- C2 witness: a fitted engine whose stub collaborator always raises
returns the empty result for user 0 rather than a propagated failure. -/
theorem recommend_fail_soft_spec_witness :
    (recFailing.user_artists_matrix = some baseMatrix
      ∧ (0 : Int) ≤ 0 ∧ (0 : Int) < (baseMatrix.nRows : Int)
      ∧ recFailing.implicit_model.recommend 0 5 = .error ())
    ∧ recFailing.recommend 0 5 = .ok ([], []) :=
  ⟨⟨rfl, le_refl 0, by decide, rfl⟩,
    recommend_fail_soft_spec recFailing baseMatrix 0 5 () rfl (by decide) (by decide) rfl⟩

/-- C3 counterexample: on a fitted engine with 2 users, `recommend` at the
negative user id `-1` returns the empty result; it does not fail with the
out-of-range error, because the bounds check at src/reccommender.py line
63 only rejects `user_id ≥ shape[0]` and never tests for negativity. -/
theorem recommend_negative_user_counterexample :
    recEmptyModel.recommend (-1) 5 = .ok ([], [])
    ∧ recEmptyModel.recommend (-1) 5 ≠ .error .outOfRange := by
  constructor
  · rfl
  · intro h
    have h0 : recEmptyModel.recommend (-1) 5 = .ok ([], []) := rfl
    rw [h0] at h
    exact Except.noConfusion h

/-- C3 amended: on a fitted engine, `recommend` fails with the
out-of-range error exactly when `user_id` is at least the stored matrix's
row count; every `user_id` below the row count — negative ids included —
yields a non-raising `.ok` result instead. -/
theorem recommend_out_of_range_spec (rec : ImplicitRecommender) (m : CSRMatrix)
    (user_id n : Int) (hfit : rec.user_artists_matrix = some m) :
    ((m.nRows : Int) ≤ user_id → rec.recommend user_id n = .error .outOfRange)
    ∧ (user_id < (m.nRows : Int) → ∃ v, rec.recommend user_id n = .ok v) := by
  constructor
  · intro h
    rw [recommend_fitted_eq rec m user_id n hfit, if_pos h]
  · intro h
    rw [recommend_fitted_eq rec m user_id n hfit, if_neg (not_le.mpr h)]
    by_cases h2 : user_id < -(m.nRows : Int)
    · rw [if_pos h2]
      exact ⟨([], []), rfl⟩
    · rw [if_neg h2]
      cases hs2 : rec.implicit_model.recommend user_id n with
      | error e => exact ⟨([], []), rfl⟩
      | ok pairs =>
        cases hs3 : resolveList rec.artist_retriever pairs with
        | error e => exact ⟨([], []), by simp [hs3]⟩
        | ok names => exact ⟨(names, pairs.map Prod.snd), by simp [hs3]⟩

/-- C3 amended witness: on the fitted 2-user engine, user id 5 (≥ 2)
triggers the out-of-range failure. -/
theorem recommend_out_of_range_spec_witness :
    recEmptyModel.user_artists_matrix = some baseMatrix
    ∧ (((baseMatrix.nRows : Int) ≤ 5 → recEmptyModel.recommend 5 3 = .error .outOfRange)
      ∧ (5 < (baseMatrix.nRows : Int) → ∃ v, recEmptyModel.recommend 5 3 = .ok v)) :=
  ⟨rfl, recommend_out_of_range_spec recEmptyModel baseMatrix 5 3 rfl⟩

/-- C4: resolving any id before `load_artists` fails with the not-loaded
error; after a successful load, an id present in exactly one catalog row
resolves to that row's exact stored name, and an id absent from the
catalog never raises — it returns the deterministic placeholder string
embedding the missing id. -/
theorem get_artist_name_from_id_spec (f : ArtistsFile) (ret ret2 : ArtistRetriever)
    (i aid missing : Nat) (nm : String)
    (hload : ret.load_artists f = .ok ret2)
    (hpresent : f.rows.filter (fun r => r.id = aid) = [⟨aid, nm⟩])
    (habsent : f.rows.filter (fun r => r.id = missing) = []) :
    ArtistRetriever.init.get_artist_name_from_id i = .error .notLoaded
    ∧ ret2.get_artist_name_from_id aid = .ok (.scalar nm)
    ∧ ret2.get_artist_name_from_id missing
        = .ok (.scalar ("Unknown Artist (ID: " ++ toString missing ++ ")")) := by
  have hdf := load_artists_ok ret ret2 f hload
  refine ⟨get_artist_name_unloaded ArtistRetriever.init i rfl, ?_, ?_⟩
  · simp [ArtistRetriever.get_artist_name_from_id, hdf, hpresent]
  · simp [ArtistRetriever.get_artist_name_from_id, hdf, habsent]

/-- C4 witness: the catalog `(10, "Alpha")` resolves 10 to `"Alpha"` and
99 to the placeholder embedding `99`; a fresh retriever raises. -/
theorem get_artist_name_from_id_spec_witness :
    (ArtistRetriever.init.load_artists scenarioCatalog = .ok scenarioRetriever
      ∧ scenarioCatalog.rows.filter (fun r => r.id = 10) = [⟨10, "Alpha"⟩]
      ∧ scenarioCatalog.rows.filter (fun r => r.id = 99) = [])
    ∧ (ArtistRetriever.init.get_artist_name_from_id 7 = .error .notLoaded
      ∧ scenarioRetriever.get_artist_name_from_id 10 = .ok (.scalar "Alpha")
      ∧ scenarioRetriever.get_artist_name_from_id 99
          = .ok (.scalar ("Unknown Artist (ID: " ++ toString 99 ++ ")"))) :=
  ⟨⟨rfl, by decide, by decide⟩,
    get_artist_name_from_id_spec scenarioCatalog ArtistRetriever.init scenarioRetriever
      7 10 99 "Alpha" rfl (by decide) (by decide)⟩

/-- C5 counterexample: loading a catalog in which id 10 appears in two
rows `("Alpha"` then `"Beta")` and resolving 10 yields the pandas Series
of BOTH names in file order, not the later name `"Beta"` alone:
`set_index("id")` keeps duplicate rows, so last-write-wins fails. -/
theorem load_artists_duplicate_counterexample :
    ArtistRetriever.init.load_artists dupCatalog = .ok dupRetriever
    ∧ dupRetriever.get_artist_name_from_id 10 = .ok (.series ["Alpha", "Beta"])
    ∧ dupRetriever.get_artist_name_from_id 10 ≠ .ok (.scalar "Beta") := by
  refine ⟨rfl, rfl, ?_⟩
  intro h
  have h0 : dupRetriever.get_artist_name_from_id 10
      = (.ok (.series ["Alpha", "Beta"]) : Except ResolveError ResolveValue) := rfl
  rw [h0] at h
  injection h with h2
  exact ResolveValue.noConfusion h2

/-- C5 amended: after a successful `load_artists` of a catalog in which
some id occurs in more than one row, resolving that id keeps every
matching row: it returns the names of ALL matching rows in file order (a
multi-valued Series); the later row does not overwrite the earlier one
and resolution is multi-valued rather than unambiguous. -/
theorem load_artists_duplicate_spec (f : ArtistsFile) (ret ret2 : ArtistRetriever)
    (aid : Nat) (r1 r2 : ArtistRow) (rest : List ArtistRow)
    (hload : ret.load_artists f = .ok ret2)
    (hdup : f.rows.filter (fun r => r.id = aid) = r1 :: r2 :: rest) :
    ret2.get_artist_name_from_id aid
      = .ok (.series ((r1 :: r2 :: rest).map ArtistRow.name)) := by
  have hdf := load_artists_ok ret ret2 f hload
  simp [ArtistRetriever.get_artist_name_from_id, hdf, hdup]

/-- C5 amended witness: the two-row duplicate catalog resolves id 10 to
the Series `["Alpha", "Beta"]`. -/
theorem load_artists_duplicate_spec_witness :
    (ArtistRetriever.init.load_artists dupCatalog = .ok dupRetriever
      ∧ dupCatalog.rows.filter (fun r => r.id = 10) = [⟨10, "Alpha"⟩, ⟨10, "Beta"⟩])
    ∧ dupRetriever.get_artist_name_from_id 10
        = .ok (.series (([⟨10, "Alpha"⟩, ⟨10, "Beta"⟩] : List ArtistRow).map ArtistRow.name)) :=
  ⟨⟨rfl, by decide⟩,
    load_artists_duplicate_spec dupCatalog ArtistRetriever.init dupRetriever 10
      ⟨10, "Alpha"⟩ ⟨10, "Beta"⟩ [] rfl (by decide)⟩

/-- C6: on a fitted engine with a loaded catalog and an in-range user,
when the collaborator returns an ordered list of `(artist_id, score)`
pairs, name resolution succeeds and `recommend` returns exactly those
resolutions, in the same order, paired with the same scores in the same
order. -/
theorem recommend_order_spec (rec : ImplicitRecommender) (m : CSRMatrix) (df : List ArtistRow)
    (user_id n : Int) (pairs : List (Nat × Rat))
    (hfit : rec.user_artists_matrix = some m)
    (hloaded : rec.artist_retriever.artists_df = some df)
    (hlo : 0 ≤ user_id) (hhi : user_id < (m.nRows : Int))
    (hscore : rec.implicit_model.recommend user_id n = .ok pairs) :
    ∃ names,
      resolveList rec.artist_retriever pairs = .ok names
      ∧ rec.recommend user_id n = .ok (names, pairs.map Prod.snd) := by
  obtain ⟨names, hres⟩ := resolveList_ok rec.artist_retriever df hloaded pairs
  refine ⟨names, hres, ?_⟩
  rw [recommend_fitted_eq rec m user_id n hfit, if_neg (not_le.mpr hhi),
    if_neg (by omega), hscore]
  simp [hres]

/-- C6 witness: the stub collaborator returning `[(10, 0.9), (5, 0.4)]`
with catalog `{10: "Alpha"}` yields `[("Alpha", 0.9),
(placeholder-for-5, 0.4)]` in that order. -/
theorem recommend_order_spec_witness :
    (recScenario.user_artists_matrix = some baseMatrix
      ∧ recScenario.artist_retriever.artists_df = some scenarioCatalog.rows
      ∧ recScenario.implicit_model.recommend 0 2 = .ok [(10, 9/10), (5, 2/5)])
    ∧ (∃ names,
        resolveList recScenario.artist_retriever [(10, 9/10), (5, 2/5)] = .ok names
        ∧ recScenario.recommend 0 2
            = .ok (names, ([(10, 9/10), (5, 2/5)] : List (Nat × Rat)).map Prod.snd))
    ∧ recScenario.recommend 0 2
        = .ok ([.scalar "Alpha", .scalar ("Unknown Artist (ID: " ++ toString 5 ++ ")")],
            [9/10, 2/5]) :=
  ⟨⟨rfl, rfl, rfl⟩,
    recommend_order_spec recScenario baseMatrix scenarioCatalog.rows 0 2
      [(10, 9/10), (5, 2/5)] rfl rfl (by decide) (by decide) rfl,
    by rfl⟩

/-- C7: calling `recommend` on an engine on which `fit` has never been
called fails with the not-fitted error, for every retriever, collaborator,
user id and requested count. -/
theorem recommend_not_fitted_spec (ret : ArtistRetriever) (model : ImplicitModel)
    (user_id n : Int) :
    (ImplicitRecommender.init ret model).recommend user_id n = .error .notFitted := rfl

/-- C8: a file that exists but lacks a required field makes its loader
fail with the schema error, and the rows play no part in that outcome —
the theorem holds for every row list, even rows whose weight could never
be parsed, so the failure precedes all row parsing. -/
theorem schema_error_spec (fi : InteractionsFile) (fa : ArtistsFile) (ret : ArtistRetriever)
    (hip : fi.present = true)
    (his : (["userID", "artistID", "weight"].all fi.fields.contains) = false)
    (hap : fa.present = true)
    (hcs : (["id", "name"].all fa.fields.contains) = false) :
    load_user_artists fi = .error .schemaError
    ∧ ret.load_artists fa = .error .schemaError := by
  constructor
  · simp [load_user_artists, hip, his]
  · simp [ArtistRetriever.load_artists, hap, hcs]

/-- C8 witness: an interactions file missing `weight` (with an
unparseable row) and a catalog file missing `name` both fail with the
schema error. -/
theorem schema_error_spec_witness :
    (badInteractions.present = true
      ∧ (["userID", "artistID", "weight"].all badInteractions.fields.contains) = false
      ∧ badCatalog.present = true
      ∧ (["id", "name"].all badCatalog.fields.contains) = false)
    ∧ (load_user_artists badInteractions = .error .schemaError
      ∧ ArtistRetriever.init.load_artists badCatalog = .error .schemaError) :=
  ⟨⟨rfl, by decide, rfl, by decide⟩,
    schema_error_spec badInteractions badCatalog ArtistRetriever.init rfl (by decide)
      rfl (by decide)⟩

/-- C9: on a fitted engine with an in-range user, requesting `n ≤ 0`
recommendations from a conforming collaborator (one that returns at most
`n` pairs when it succeeds) yields the empty result with no error. -/
theorem recommend_nonpositive_n_spec (rec : ImplicitRecommender) (m : CSRMatrix)
    (user_id n : Int)
    (hfit : rec.user_artists_matrix = some m)
    (hlo : 0 ≤ user_id) (hhi : user_id < (m.nRows : Int))
    (hn : n ≤ 0)
    (hconform : ∀ l, rec.implicit_model.recommend user_id n = .ok l
        → (l.length : Int) ≤ n) :
    rec.recommend user_id n = .ok ([], []) := by
  rw [recommend_fitted_eq rec m user_id n hfit, if_neg (not_le.mpr hhi), if_neg (by omega)]
  cases hs2 : rec.implicit_model.recommend user_id n with
  | error e => rfl
  | ok l =>
    have hlen := hconform l hs2
    have hnil : l = [] := by
      cases l with
      | nil => rfl
      | cons x xs =>
        simp [List.length_cons] at hlen
        omega
    subst hnil
    rfl

/-- C9 witness: requesting 0 recommendations from the fitted engine with
a no-candidate collaborator returns the empty result without error. -/
theorem recommend_nonpositive_n_spec_witness :
    (recEmptyModel.user_artists_matrix = some baseMatrix
      ∧ (0 : Int) ≤ 0 ∧ (0 : Int) < (baseMatrix.nRows : Int))
    ∧ recEmptyModel.recommend 0 0 = .ok ([], []) :=
  ⟨⟨rfl, le_refl 0, by decide⟩,
    recommend_nonpositive_n_spec recEmptyModel baseMatrix 0 0 rfl (by decide) (by decide)
      (by decide) (fun l hl => by cases hl; decide)⟩

/-- C10: on a fitted engine with an in-range user but a never-loaded
catalog, when the collaborator succeeds with at least one candidate, the
not-loaded failure raised during name resolution is swallowed by the same
fail-soft handler as scoring failures: `recommend` returns the empty
result instead of surfacing the unloaded-catalog precondition. -/
theorem recommend_unloaded_catalog_spec (rec : ImplicitRecommender) (m : CSRMatrix)
    (user_id n : Int) (p : Nat × Rat) (ps : List (Nat × Rat))
    (hfit : rec.user_artists_matrix = some m)
    (hunloaded : rec.artist_retriever.artists_df = none)
    (hlo : 0 ≤ user_id) (hhi : user_id < (m.nRows : Int))
    (hscore : rec.implicit_model.recommend user_id n = .ok (p :: ps)) :
    rec.recommend user_id n = .ok ([], []) := by
  rw [recommend_fitted_eq rec m user_id n hfit, if_neg (not_le.mpr hhi),
    if_neg (by omega), hscore]
  simp [resolveList_unloaded rec.artist_retriever p ps hunloaded]

/-- C10 witness: the fitted engine with an unloaded retriever and a
collaborator returning two candidates yields the empty result, not a
raised not-loaded error. -/
theorem recommend_unloaded_catalog_spec_witness :
    (recUnloaded.user_artists_matrix = some baseMatrix
      ∧ recUnloaded.artist_retriever.artists_df = none
      ∧ recUnloaded.implicit_model.recommend 0 5 = .ok [(10, 9/10), (5, 2/5)])
    ∧ recUnloaded.recommend 0 5 = .ok ([], []) :=
  ⟨⟨rfl, rfl, rfl⟩,
    recommend_unloaded_catalog_spec recUnloaded baseMatrix 0 5 (10, 9/10) [(5, 2/5)]
      rfl rfl (by decide) (by decide) rfl⟩

end MusicRecommender
